import Mathlib

/-!
Shallow embedding of `sh/corr_dump_plot.py` (namuru-nano).

The script is a straight-line program:

  d0 = np.loadtxt("corr_dump.txt")
  t0 = d0[:, 0]; p0 = d0[:, 8]; e0 = d0[:, 7]; l0 = d0[:, 9]
  (figure 1: plot (t0,p0), (t0,e0), (t0,l0))
  i0 = d0[:, 3]; q0 = d0[:, 4]
  r  = np.mean(np.sqrt(i0**2 + q0**2))
  th = np.arange(0, 361, 5)
  ic = r * np.cos(np.deg2rad(th)); qc = r * np.sin(np.deg2rad(th))
  (figure 2: scatter (i0,q0), line (ic,qc))
  (figure 3: plot (t0,i0), (t0,q0))

Modelling choices, each traceable to the numpy semantics the source calls:

* The input file is modelled after tokenization: a list of lines, each line a
  list of tokens; a token is either a numeric literal (parsed decimal
  literals are rationals, so the payload is `ℚ`) or a non-numeric token
  (`Token.bad`), on which float conversion raises ValueError.
* `np.loadtxt` skips blank lines, converts every token to float (failing on a
  non-numeric token), requires every row to have the same number of fields
  (ValueError otherwise), and finally — with the default `ndmin=0` — squeezes
  singleton axes: a single parsed row yields a 1-D array of its fields, a
  single-column table yields a 1-D array, an empty input yields shape (0,).
  (A 1x1 input actually yields a 0-D array; we model it as a 1-D singleton.
  The difference is unobservable here: every basic slice `d0[:, j]` raises
  IndexError on 0-D exactly as it does on 1-D.)
* A column slice `d0[:, j]` succeeds only on a 2-D array with `j` in range
  (IndexError otherwise, which aborts the script); it is modelled in `Option`.
* The float arithmetic of the radius and circle is modelled over the exact
  reals `ℝ` (`np.sqrt`, `np.cos`, `np.sin`, `np.deg2rad`, `np.mean`).
* Each figure is modelled as the tuple of data series handed to the plotting
  calls; `matplotlib` consumes them read-only.
-/

namespace CorrDump

/-- A whitespace-separated token of the input file: a numeric literal
(rational, as every parsed decimal literal is) or a non-numeric token. -/
inductive Token where
  | num : ℚ → Token
  | bad : Token
deriving DecidableEq

/-- Float conversion of one token: a non-numeric token raises ValueError. -/
def tokVal : Token → Option ℚ
  | .num q => some q
  | .bad => none

/-- Convert one line's tokens to floats, failing on a non-numeric token. -/
def parseLine : List Token → Option (List ℚ)
  | [] => some []
  | t :: ts =>
    match tokVal t, parseLine ts with
    | some x, some xs => some (x :: xs)
    | _, _ => none

/-- Convert every line, failing if any line fails. -/
def parseLines : List (List Token) → Option (List (List ℚ))
  | [] => some []
  | l :: ls =>
    match parseLine l, parseLines ls with
    | some v, some vs => some (v :: vs)
    | _, _ => none

/-- `np.loadtxt` requires every data row to have the same number of fields. -/
def consistentLens : List (List ℚ) → Bool
  | [] => true
  | row :: rest => rest.all (fun s => s.length = row.length)

/-- Result of `np.loadtxt`: a 2-D array (list of rows) or a squeezed 1-D
array (the `ndmin=0` default squeezes singleton axes). -/
inductive NDArray where
  | d2 : List (List ℚ) → NDArray
  | d1 : List ℚ → NDArray
deriving DecidableEq

/-- Squeeze singleton axes, as `np.loadtxt` does with the default `ndmin=0`:
one parsed row gives a 1-D array of its fields; a one-column table gives a
1-D array of the column; an empty input gives shape (0,). -/
def squeeze (rows : List (List ℚ)) : NDArray :=
  if rows.length = 1 then .d1 (rows.headD [])
  else if rows.all (fun row => row.length = 1) then .d1 (rows.map (fun row => row.headD 0))
  else .d2 rows

/-- `np.loadtxt` on the tokenized file: skip blank lines, convert every token
to float, check the rows are rectangular, squeeze singleton axes.  `none` is
the ValueError raised on a non-numeric token or a wrong field count. -/
def loadtxt (lines : List (List Token)) : Option NDArray :=
  match parseLines (lines.filter (fun l => !l.isEmpty)) with
  | none => none
  | some rows => if consistentLens rows then some (squeeze rows) else none

/-- Extract column `j` of a list of rows, failing if some row is too short. -/
def getCol : List (List ℚ) → ℕ → Option (List ℚ)
  | [], _ => some []
  | row :: rest, j =>
    match row[j]?, getCol rest j with
    | some x, some xs => some (x :: xs)
    | _, _ => none

/-- The basic slice `d0[:, j]`: IndexError (`none`) on a 1-D array ("too many
indices") and on an out-of-range column index. -/
def colSlice : NDArray → ℕ → Option (List ℚ)
  | .d1 _, _ => none
  | .d2 rows, j => getCol rows j

/-- The six column views the script binds:
`t0 = d0[:,0]`, `p0 = d0[:,8]`, `e0 = d0[:,7]`, `l0 = d0[:,9]`,
`i0 = d0[:,3]`, `q0 = d0[:,4]`. -/
structure Slices where
  t0 : List ℚ
  p0 : List ℚ
  e0 : List ℚ
  l0 : List ℚ
  i0 : List ℚ
  q0 : List ℚ
deriving DecidableEq

/-- All six slices of the loaded array; the script aborts (IndexError) if any
of them fails. -/
def sliceAll (a : NDArray) : Option Slices :=
  match colSlice a 0, colSlice a 8, colSlice a 7, colSlice a 9,
        colSlice a 3, colSlice a 4 with
  | some t0, some p0, some e0, some l0, some i0, some q0 =>
      some ⟨t0, p0, e0, l0, i0, q0⟩
  | _, _, _, _, _, _ => none

/-- Load the file and take the six column slices the script binds. -/
def loadAndSlice (lines : List (List Token)) : Option Slices :=
  (loadtxt lines).bind sliceAll

/-- Per-row prompt magnitude `np.sqrt(i**2 + q**2)`, over exact reals. -/
noncomputable def mag (i q : ℚ) : ℝ := Real.sqrt ((i : ℝ) ^ 2 + (q : ℝ) ^ 2)

/-- `np.mean`: sum divided by length. -/
noncomputable def listMean (l : List ℝ) : ℝ := l.sum / l.length

/-- `r = np.mean(np.sqrt(i0**2 + q0**2))`: the reference-circle radius. -/
noncomputable def meanRadius (i0 q0 : List ℚ) : ℝ :=
  listMean (List.zipWith mag i0 q0)

/-- `np.arange(0, stop, step)` over naturals: `step * k` for
`k < ceil(stop / step)`. -/
def arange (stop step : ℕ) : List ℕ :=
  (List.range ((stop + step - 1) / step)).map (fun k => step * k)

/-- `th = np.arange(0, 361, 5)`: the circle's angle samples in degrees. -/
def th : List ℕ := arange 361 5

/-- `np.deg2rad`. -/
noncomputable def deg2rad (x : ℝ) : ℝ := x * Real.pi / 180

/-- One reference-circle point
`(r * cos(deg2rad d), r * sin(deg2rad d))` for an angle `d` in degrees. -/
noncomputable def circlePoint (r : ℝ) (d : ℕ) : ℝ × ℝ :=
  (r * Real.cos (deg2rad d), r * Real.sin (deg2rad d))

/-- The reference circle `zip ic qc` with `ic = r*cos(deg2rad(th))`,
`qc = r*sin(deg2rad(th))`. -/
noncomputable def circle (r : ℝ) : List (ℝ × ℝ) := th.map (circlePoint r)

/-- Figure 1: the three power series plotted against the dump index. -/
structure Fig1 where
  x : List ℚ
  prompt : List ℚ
  early : List ℚ
  late : List ℚ
deriving DecidableEq

/-- Figure 2: the prompt I/Q scatter, the reference-circle line, and the
radius (also shown in the legend label). -/
structure Fig2 where
  scatter : List (ℚ × ℚ)
  circleLine : List (ℝ × ℝ)
  radius : ℝ

/-- Figure 3: the prompt I and Q series plotted against the dump index. -/
structure Fig3 where
  x : List ℚ
  iSeries : List ℚ
  qSeries : List ℚ
deriving DecidableEq

/-- The data series handed to figure 1's three `plt.plot` calls. -/
def fig1Of (s : Slices) : Fig1 := ⟨s.t0, s.p0, s.e0, s.l0⟩

/-- The data handed to figure 2's two `plt.plot` calls. -/
noncomputable def fig2Of (s : Slices) : Fig2 :=
  ⟨s.i0.zip s.q0, circle (meanRadius s.i0 s.q0), meanRadius s.i0 s.q0⟩

/-- The data series handed to figure 3's two `plt.plot` calls. -/
def fig3Of (s : Slices) : Fig3 := ⟨s.t0, s.i0, s.q0⟩

/-- Everything the script draws. -/
structure ScriptOut where
  fig1 : Fig1
  fig2 : Fig2
  fig3 : Fig3

/-- The whole script: load, slice, and build the three figures.  `none` is an
uncaught exception (ValueError or IndexError) aborting the script before any
figure is shown. -/
noncomputable def script (lines : List (List Token)) : Option ScriptOut :=
  (loadAndSlice lines).map (fun s => ⟨fig1Of s, fig2Of s, fig3Of s⟩)

/-- A row of rationals as a line of numeric tokens. -/
def numLine (row : List ℚ) : List Token := row.map Token.num

/-- A table of rationals as a tokenized file. -/
def numLines (rows : List (List ℚ)) : List (List Token) := rows.map numLine

/-! ### Parsing lemmas -/

theorem parseLine_numLine (row : List ℚ) : parseLine (numLine row) = some row := by
  induction row with
  | nil => rfl
  | cons x xs ih => simp [numLine, parseLine, tokVal] at ih ⊢; simp [ih]

theorem parseLine_length {l : List Token} {v : List ℚ}
    (h : parseLine l = some v) : v.length = l.length := by
  induction l generalizing v with
  | nil => simp [parseLine] at h; simp [← h]
  | cons t ts ih =>
    rw [parseLine] at h
    rcases ht : tokVal t with _ | x <;> rw [ht] at h
    · exact absurd h (by simp)
    · rcases hts : parseLine ts with _ | xs <;> rw [hts] at h
      · exact absurd h (by simp)
      · rcases h with ⟨rfl⟩
        simp [ih hts]

theorem parseLines_numLines (rows : List (List ℚ)) :
    parseLines (numLines rows) = some rows := by
  induction rows with
  | nil => rfl
  | cons row rest ih =>
    simp [numLines, parseLines] at ih ⊢
    simp [parseLine_numLine, ih]

theorem parseLines_none_of_mem {ls : List (List Token)} {l : List Token}
    (hmem : l ∈ ls) (hl : parseLine l = none) : parseLines ls = none := by
  induction ls with
  | nil => simp at hmem
  | cons hd tl ih =>
    rcases List.mem_cons.mp hmem with rfl | hmem
    · simp [parseLines, hl]
    · rw [parseLines, ih hmem]
      rcases parseLine hd <;> rfl

theorem parseLines_mem {ls : List (List Token)} {rows : List (List ℚ)}
    {l : List Token} (h : parseLines ls = some rows) (hmem : l ∈ ls) :
    ∃ v ∈ rows, parseLine l = some v := by
  induction ls generalizing rows with
  | nil => simp at hmem
  | cons hd tl ih =>
    rw [parseLines] at h
    rcases hhd : parseLine hd with _ | v <;> rw [hhd] at h
    · exact absurd h (by simp)
    · rcases htl : parseLines tl with _ | vs <;> rw [htl] at h
      · exact absurd h (by simp)
      · rcases h with ⟨rfl⟩
        rcases List.mem_cons.mp hmem with rfl | hmem
        · exact ⟨v, by simp, hhd⟩
        · obtain ⟨w, hw, hpw⟩ := ih htl hmem
          exact ⟨w, by simp [hw], hpw⟩

theorem consistentLens_lengths {rows : List (List ℚ)}
    (h : consistentLens rows = true) :
    ∀ r1 ∈ rows, ∀ r2 ∈ rows, r1.length = r2.length := by
  cases rows with
  | nil => simp
  | cons row rest =>
    rw [consistentLens, List.all_eq_true] at h
    intro r1 h1 r2 h2
    have len1 : r1.length = row.length := by
      rcases List.mem_cons.mp h1 with rfl | h1
      · rfl
      · simpa using h r1 h1
    have len2 : r2.length = row.length := by
      rcases List.mem_cons.mp h2 with rfl | h2
      · rfl
      · simpa using h r2 h2
    rw [len1, len2]

theorem consistentLens_of_all {rows : List (List ℚ)} {n : ℕ}
    (h : ∀ row ∈ rows, row.length = n) : consistentLens rows = true := by
  cases rows with
  | nil => rfl
  | cons row rest =>
    rw [consistentLens, List.all_eq_true]
    intro s hs
    simp only [decide_eq_true_eq]
    rw [h s (by simp [hs]), h row (by simp)]

theorem getCol_eq_some {rows : List (List ℚ)} {j : ℕ}
    (h : ∀ row ∈ rows, j < row.length) :
    getCol rows j = some (rows.map (fun row => row.getD j 0)) := by
  induction rows with
  | nil => rfl
  | cons row rest ih =>
    have hrow : j < row.length := h row (by simp)
    rw [getCol, List.getElem?_eq_getElem hrow,
      ih (fun s hs => h s (by simp [hs]))]
    simp [List.getD_eq_getElem _ _ hrow, List.getElem?_eq_getElem hrow]

theorem filter_numLines {rows : List (List ℚ)}
    (h : ∀ row ∈ rows, row ≠ []) :
    (numLines rows).filter (fun l => !l.isEmpty) = numLines rows := by
  rw [List.filter_eq_self]
  intro l hl
  obtain ⟨row, hrow, rfl⟩ := List.mem_map.mp hl
  rcases row with _ | ⟨x, xs⟩
  · exact absurd rfl (h [] hrow)
  · rfl

theorem loadtxt_numLines {rows : List (List ℚ)}
    (h10 : ∀ row ∈ rows, row.length = 10) (h2 : 2 ≤ rows.length) :
    loadtxt (numLines rows) = some (.d2 rows) := by
  have hne : ∀ row ∈ rows, row ≠ [] := by
    intro row hrow hnil
    have := h10 row hrow
    rw [hnil] at this
    simp at this
  rw [loadtxt, filter_numLines hne]
  simp only [parseLines_numLines, consistentLens_of_all h10, if_true]
  rcases rows with _ | ⟨row, rest⟩
  · simp at h2
  · rcases rest with _ | ⟨row2, rest2⟩
    · simp at h2
    · have hlen : (row :: row2 :: rest2).length ≠ 1 := by simp
      have hall : ((row :: row2 :: rest2).all fun s => s.length = 1) = false := by
        rw [Bool.eq_false_iff]
        intro hcontra
        rw [List.all_eq_true] at hcontra
        have hr := hcontra row (by simp)
        rw [h10 row (by simp)] at hr
        simp at hr
      rw [squeeze, if_neg hlen, hall]
      rfl

theorem sliceAll_d2 {rows : List (List ℚ)}
    (h10 : ∀ row ∈ rows, row.length = 10) :
    sliceAll (.d2 rows) =
      some ⟨rows.map (fun row => row.getD 0 0), rows.map (fun row => row.getD 8 0),
            rows.map (fun row => row.getD 7 0), rows.map (fun row => row.getD 9 0),
            rows.map (fun row => row.getD 3 0), rows.map (fun row => row.getD 4 0)⟩ := by
  have hj : ∀ j : ℕ, j < 10 →
      getCol rows j = some (rows.map (fun row => row.getD j 0)) := by
    intro j hjlt
    exact getCol_eq_some (fun row hrow => by rw [h10 row hrow]; exact hjlt)
  rw [sliceAll]
  simp only [colSlice, hj 0 (by norm_num), hj 8 (by norm_num), hj 7 (by norm_num),
    hj 9 (by norm_num), hj 3 (by norm_num), hj 4 (by norm_num)]

/-! ### Radius and circle lemmas -/

theorem listMean_of_all_eq {l : List ℝ} {c : ℝ} (hne : l ≠ [])
    (h : ∀ x ∈ l, x = c) : listMean l = c := by
  have hsum : l.sum = l.length • c := List.sum_eq_card_nsmul l c h
  have hlen : (l.length : ℝ) ≠ 0 := by
    simp [List.length_eq_zero]
    exact hne
  rw [listMean, hsum, nsmul_eq_mul, mul_comm, mul_div_assoc, div_self hlen, mul_one]

theorem mag_zero : mag 0 0 = 0 := by
  simp [mag]

theorem zipWith_mag_all_zero {i0 q0 : List ℚ}
    (hi : ∀ x ∈ i0, x = 0) (hq : ∀ x ∈ q0, x = 0) :
    ∀ y ∈ List.zipWith mag i0 q0, y = 0 := by
  induction i0 generalizing q0 with
  | nil => simp
  | cons a as ih =>
    cases q0 with
    | nil => simp
    | cons b bs =>
      intro y hy
      rcases List.mem_cons.mp hy with rfl | hy
      · rw [hi a (by simp), hq b (by simp)]
        exact mag_zero
      · exact ih (fun x hx => hi x (by simp [hx]))
          (fun x hx => hq x (by simp [hx])) y hy

theorem th_getElem? {k : ℕ} (hk : k < 73) : th[k]? = some (5 * k) := by
  rw [th, arange]
  rw [List.getElem?_map, List.getElem?_range hk]
  rfl

theorem circle_getElem? (r : ℝ) {k : ℕ} (hk : k < 73) :
    (circle r)[k]? = some (circlePoint r (5 * k)) := by
  rw [circle, List.getElem?_map, th_getElem? hk]
  rfl

theorem circlePoint_closed (r : ℝ) : circlePoint r 0 = circlePoint r 360 := by
  have h0 : deg2rad ((0 : ℕ) : ℝ) = 0 := by
    simp [deg2rad]
  have h360 : deg2rad ((360 : ℕ) : ℝ) = 2 * Real.pi := by
    rw [deg2rad]
    push_cast
    ring
  rw [circlePoint, circlePoint, h0, h360, Real.cos_zero, Real.sin_zero,
    Real.cos_two_pi, Real.sin_two_pi]

/-! ### Single-row (squeeze) lemmas -/

theorem loadtxt_single_row {toks : List Token} {vals : List ℚ}
    (hp : parseLine toks = some vals) (hne : vals ≠ []) :
    loadtxt [toks] = some (.d1 vals) := by
  rcases toks with _ | ⟨t, ts⟩
  · rw [parseLine] at hp
    simp at hp
    exact absurd hp hne
  · have hf : ([t :: ts].filter fun l => !l.isEmpty) = [t :: ts] := rfl
    have hpl : parseLines [t :: ts] = some [vals] := by
      rw [parseLines, hp]
      rfl
    rw [loadtxt, hf, hpl]
    rfl

theorem script_single_row {toks : List Token} {vals : List ℚ}
    (hp : parseLine toks = some vals) (hne : vals ≠ []) :
    loadAndSlice [toks] = none ∧ script [toks] = none := by
  have hslice : loadAndSlice [toks] = none := by
    rw [loadAndSlice, loadtxt_single_row hp hne]
    rfl
  refine ⟨hslice, ?_⟩
  rw [script, hslice]
  rfl

theorem script_short_table {rows : List (List ℚ)} (hlt : rows.length < 2)
    (h10 : ∀ row ∈ rows, row.length = 10) :
    script (numLines rows) = none := by
  rcases rows with _ | ⟨row, rest⟩
  · rfl
  · rcases rest with _ | ⟨row2, rest2⟩
    · have hne : row ≠ [] := by
        intro h
        have := h10 row (by simp)
        rw [h] at this
        simp at this
      exact (script_single_row (parseLine_numLine row) hne).2
    · exact absurd hlt (by simp only [List.length_cons]; omega)

/-! ### Claim theorems -/

/-- C1: the reference-circle radius is the arithmetic mean over all rows of
`sqrt(i_prompt^2 + q_prompt^2)`; in particular, for every input whose rows
all have prompt magnitude exactly 5, the computed radius equals 5 (hence is
within the stated floating-point tolerance 1e-9 of 5). -/
theorem c1_mean_radius_five (i0 q0 : List ℚ) (hne : i0 ≠ [])
    (hlen : i0.length = q0.length)
    (h5 : ∀ x ∈ List.zipWith mag i0 q0, x = 5) :
    meanRadius i0 q0 = (List.zipWith mag i0 q0).sum / i0.length ∧
    meanRadius i0 q0 = 5 ∧ |meanRadius i0 q0 - 5| ≤ 1e-9 := by
  have hzlen : (List.zipWith mag i0 q0).length = i0.length := by
    rw [List.length_zipWith, hlen, min_self]
  have hzne : List.zipWith mag i0 q0 ≠ [] := by
    rw [← List.length_pos, hzlen, List.length_pos]
    exact hne
  have hmean : meanRadius i0 q0 = 5 := listMean_of_all_eq hzne h5
  refine ⟨?_, hmean, ?_⟩
  · rw [meanRadius, listMean, hzlen]
  · rw [hmean]
    norm_num

/-- Witness for C1 at the spec's own example pairs (3,4) and (0,5). -/
theorem c1_mean_radius_five_witness : meanRadius [3, 0] [4, 5] = 5 := by
  have h34 : mag 3 4 = 5 := by
    rw [mag]
    norm_num
    rw [show (25 : ℝ) = 5 ^ 2 by norm_num, Real.sqrt_sq (by norm_num)]
  have h05 : mag 0 5 = 5 := by
    rw [mag]
    norm_num
    rw [show (25 : ℝ) = 5 ^ 2 by norm_num, Real.sqrt_sq (by norm_num)]
  refine (c1_mean_radius_five [3, 0] [4, 5] (by simp) (by simp) ?_).2.1
  intro x hx
  simp [List.zipWith] at hx
  rcases hx with rfl | rfl
  · exact h34
  · exact h05

/-- C2 (counterexample): a file with exactly one valid 10-field row DOES
make the program fail.  `np.loadtxt` squeezes the single row to a 1-D array
(the default `ndmin=0`), so the first column slice `d0[:, 0]` raises
IndexError and no plot receives any data. -/
theorem c2_single_row_counterexample :
    parseLine (numLine [1, 2, 3, 4, 5, 6, 7, 8, 9, 10]) =
      some [1, 2, 3, 4, 5, 6, 7, 8, 9, 10] ∧
    ([1, 2, 3, 4, 5, 6, 7, 8, 9, 10] : List ℚ).length = 10 ∧
    loadAndSlice [numLine [1, 2, 3, 4, 5, 6, 7, 8, 9, 10]] = none ∧
    script [numLine [1, 2, 3, 4, 5, 6, 7, 8, 9, 10]] = none := by
  refine ⟨by decide, by decide, by decide, ?_⟩
  rw [script,
    show loadAndSlice [numLine [1, 2, 3, 4, 5, 6, 7, 8, 9, 10]] = none by decide]
  rfl

/-- C2 (amended): for every input file containing exactly one valid
10-field row, the `loadtxt` call itself succeeds but — with the default
`ndmin=0` — returns a squeezed 1-D array of the 10 values, and the script
then fails at the column slices with an IndexError, so no plot receives any
data point. -/
theorem c2_single_row_amended (toks : List Token) (vals : List ℚ)
    (hp : parseLine toks = some vals) (h10 : vals.length = 10) :
    loadtxt [toks] = some (.d1 vals) ∧
    loadAndSlice [toks] = none ∧ script [toks] = none := by
  have hne : vals ≠ [] := by
    intro h
    rw [h] at h10
    simp at h10
  exact ⟨loadtxt_single_row hp hne, script_single_row hp hne⟩

/-- Witness for C2 (amended) on a concrete one-row file. -/
theorem c2_single_row_amended_witness :
    loadtxt [numLine [0, 1, 2, 3, 4, 5, 6, 7, 8, 9]] =
      some (.d1 [0, 1, 2, 3, 4, 5, 6, 7, 8, 9]) ∧
    loadAndSlice [numLine [0, 1, 2, 3, 4, 5, 6, 7, 8, 9]] = none ∧
    script [numLine [0, 1, 2, 3, 4, 5, 6, 7, 8, 9]] = none :=
  c2_single_row_amended _ _ (parseLine_numLine _) (by decide)

/-- C3 (counterexample): a file whose non-empty lines ALL have 9 numeric
fields does NOT fail the load: `np.loadtxt` only checks that the rows are
rectangular, so it happily returns a 9-column table. -/
theorem c3_malformed_counterexample :
    (numLine [1, 2, 3, 4, 5, 6, 7, 8, 9]).length = 9 ∧
    loadtxt [numLine [1, 2, 3, 4, 5, 6, 7, 8, 9],
             numLine [1, 2, 3, 4, 5, 6, 7, 8, 9]] =
      some (.d2 [[1, 2, 3, 4, 5, 6, 7, 8, 9], [1, 2, 3, 4, 5, 6, 7, 8, 9]]) :=
  ⟨by decide, by decide⟩

/-- C3 (amended): the load fails, producing no table at all, whenever some
line has a non-numeric token, or two non-empty lines tokenize to different
numbers of fields (in particular, one 9-field row in an otherwise 10-field
file).  A file whose lines all have the same field count — 10 or not —
loads without a parse error. -/
theorem c3_malformed_amended (lines : List (List Token))
    (h : (∃ l ∈ lines, parseLine l = none) ∨
      (∃ l1 ∈ lines, ∃ l2 ∈ lines, l1 ≠ [] ∧ l2 ≠ [] ∧ l1.length ≠ l2.length)) :
    loadtxt lines = none := by
  have hmemf : ∀ l ∈ lines, l ≠ [] → l ∈ lines.filter (fun s => !s.isEmpty) := by
    intro l hl hlne
    rw [List.mem_filter]
    refine ⟨hl, ?_⟩
    rcases l with _ | ⟨t, ts⟩
    · exact absurd rfl hlne
    · rfl
  rcases h with ⟨l, hmem, hnone⟩ | ⟨l1, h1, l2, h2, hne1, hne2, hdiff⟩
  · have hlne : l ≠ [] := by
      intro h
      rw [h, parseLine] at hnone
      exact absurd hnone (by simp)
    rw [loadtxt, parseLines_none_of_mem (hmemf l hmem hlne) hnone]
  · have hm1 := hmemf l1 h1 hne1
    have hm2 := hmemf l2 h2 hne2
    rw [loadtxt]
    rcases hpl : parseLines (lines.filter fun s => !s.isEmpty) with _ | rows
    · rfl
    · obtain ⟨v1, hv1, hp1⟩ := parseLines_mem hpl hm1
      obtain ⟨v2, hv2, hp2⟩ := parseLines_mem hpl hm2
      have hcl : consistentLens rows = false := by
        rw [Bool.eq_false_iff]
        intro hc
        have heq := consistentLens_lengths hc v1 hv1 v2 hv2
        rw [parseLine_length hp1, parseLine_length hp2] at heq
        exact hdiff heq
      show (if consistentLens rows = true then some (squeeze rows) else none) = none
      rw [hcl]
      rfl

/-- Witness for C3 (amended): a 9-field row alongside a 10-field row. -/
theorem c3_malformed_amended_witness :
    loadtxt [numLine [1, 2, 3, 4, 5, 6, 7, 8, 9, 10],
             numLine [1, 2, 3, 4, 5, 6, 7, 8, 9]] = none :=
  c3_malformed_amended _
    (Or.inr ⟨numLine [1, 2, 3, 4, 5, 6, 7, 8, 9, 10], by decide,
      numLine [1, 2, 3, 4, 5, 6, 7, 8, 9], by decide,
      by decide, by decide, by decide⟩)

/-- C4: for any radius, the generated reference circle has exactly 73
points, sampled at the angles 5·k degrees for k = 0..72, and its first
point (0°) is identical to its last point (360°). -/
theorem c4_circle_points_closure (r : ℝ) :
    (circle r).length = 73 ∧
    th = (List.range 73).map (fun k => 5 * k) ∧
    (circle r).head? = (circle r).getLast? := by
  refine ⟨?_, by decide, ?_⟩
  · rw [circle, List.length_map]
    decide
  · have hh : (circle r).head? = some (circlePoint r 0) := rfl
    have hl : (circle r).getLast? = some (circlePoint r 360) := rfl
    rw [hh, hl, circlePoint_closed]

/-- Witness for C4 at the concrete radius 2. -/
theorem c4_circle_points_closure_witness :
    (circle 2).length = 73 ∧
    th = (List.range 73).map (fun k => 5 * k) ∧
    (circle 2).head? = (circle 2).getLast? :=
  c4_circle_points_closure 2

/-- C6: for every radius and every k < 73, the k-th circle point is
`(r·cos(θ_k), r·sin(θ_k))` with `θ_k = 5·k` degrees converted to radians. -/
theorem c6_circle_coordinates (r : ℝ) (k : ℕ) (hk : k < 73) :
    (circle r)[k]? =
      some (r * Real.cos (5 * (k : ℝ) * Real.pi / 180),
            r * Real.sin (5 * (k : ℝ) * Real.pi / 180)) := by
  have hc : deg2rad ((5 * k : ℕ) : ℝ) = 5 * (k : ℝ) * Real.pi / 180 := by
    rw [deg2rad]
    push_cast
    ring
  rw [circle_getElem? r hk, circlePoint, hc]

/-- Witness for C6 at r = 1, k = 0. -/
theorem c6_circle_coordinates_witness :
    (circle 1)[0]? =
      some (1 * Real.cos (5 * ((0 : ℕ) : ℝ) * Real.pi / 180),
            1 * Real.sin (5 * ((0 : ℕ) : ℝ) * Real.pi / 180)) :=
  c6_circle_coordinates 1 0 (by norm_num)

/-- C5 (counterexample): for a table of N = 1 rows the claim fails — the
squeezed 1-D load makes the column slices raise IndexError, so no
prompt-power series is passed to the power plot at all. -/
theorem c5_column_mapping_counterexample :
    (∀ row ∈ [[(5 : ℚ), 1, 2, 3, 4, 5, 6, 7, 99, 9]], row.length = 10) ∧
    script (numLines [[5, 1, 2, 3, 4, 5, 6, 7, 99, 9]]) = none := by
  refine ⟨by decide, ?_⟩
  rw [script,
    show loadAndSlice (numLines [[5, 1, 2, 3, 4, 5, 6, 7, 99, 9]]) = none by decide]
  rfl

/-- C5 (amended): for every input table of N ≥ 2 rows of 10 fields, the
prompt-power series passed to the power-vs-index plot is exactly column 8
of the table, element for element and in file order, with no aggregation,
filtering, or smoothing; likewise column 0 is the x-axis series. -/
theorem c5_column_mapping_amended (rows : List (List ℚ))
    (h10 : ∀ row ∈ rows, row.length = 10) (h2 : 2 ≤ rows.length) :
    (script (numLines rows)).map (fun o => o.fig1.prompt) =
      some (rows.map (fun row => row.getD 8 0)) ∧
    (script (numLines rows)).map (fun o => o.fig1.x) =
      some (rows.map (fun row => row.getD 0 0)) := by
  have hslice : loadAndSlice (numLines rows) =
      some ⟨rows.map (fun row => row.getD 0 0), rows.map (fun row => row.getD 8 0),
            rows.map (fun row => row.getD 7 0), rows.map (fun row => row.getD 9 0),
            rows.map (fun row => row.getD 3 0), rows.map (fun row => row.getD 4 0)⟩ := by
    rw [loadAndSlice, loadtxt_numLines h10 h2]
    exact sliceAll_d2 h10
  constructor <;> rw [script, hslice] <;> rfl

/-- Witness for C5 (amended) on a concrete two-row table. -/
theorem c5_column_mapping_amended_witness :
    (script (numLines [[0, 1, 2, 3, 4, 5, 6, 7, 8, 9],
                       [10, 11, 12, 13, 14, 15, 16, 17, 18, 19]])).map
      (fun o => o.fig1.prompt) = some [8, 18] := by
  have h := (c5_column_mapping_amended
    [[0, 1, 2, 3, 4, 5, 6, 7, 8, 9], [10, 11, 12, 13, 14, 15, 16, 17, 18, 19]]
    (by decide) (by decide)).1
  rw [h]
  decide

/-- Helper for C7: all-zero prompt I/Q columns give radius 0. -/
theorem meanRadius_all_zero {i0 q0 : List ℚ}
    (hi : ∀ x ∈ i0, x = 0) (hq : ∀ x ∈ q0, x = 0) :
    meanRadius i0 q0 = 0 := by
  have hz := zipWith_mag_all_zero hi hq
  rcases hzw : List.zipWith mag i0 q0 with _ | ⟨y, ys⟩
  · rw [meanRadius, hzw, listMean]
    simp
  · rw [hzw] at hz
    rw [meanRadius, hzw]
    exact listMean_of_all_eq (by simp) hz

/-- Helper for C7: the radius-0 circle is 73 copies of the origin. -/
theorem circle_zero_replicate :
    circle 0 = List.replicate 73 ((0 : ℝ), (0 : ℝ)) := by
  rw [List.eq_replicate_iff]
  constructor
  · rw [circle, List.length_map]
    decide
  · intro p hp
    obtain ⟨d, hd, rfl⟩ := List.mem_map.mp hp
    simp [circlePoint]

/-- C7 (counterexample): an all-zero single-row table is in the claim's
domain (every prompt I/Q pair is (0,0)), yet the program DOES fail there:
the squeezed 1-D load makes the column slices raise IndexError before the
radius is ever computed, so the render never happens. -/
theorem c7_zero_prompt_counterexample :
    (∀ row ∈ [[(0 : ℚ), 0, 0, 0, 0, 0, 0, 0, 0, 0]],
      row.length = 10 ∧ row.getD 3 0 = 0 ∧ row.getD 4 0 = 0) ∧
    script (numLines [[(0 : ℚ), 0, 0, 0, 0, 0, 0, 0, 0, 0]]) = none := by
  refine ⟨by decide, ?_⟩
  rw [script,
    show loadAndSlice (numLines [[(0 : ℚ), 0, 0, 0, 0, 0, 0, 0, 0, 0]]) = none
      by decide]
  rfl

/-- C7 (amended): for every input table of N ≥ 2 rows of 10 fields in which
every prompt I/Q pair is (0,0), the program does not fail: the script
succeeds, the computed radius is 0, and the reference circle is 73 copies of
the origin — a degenerate but valid render.  (For N = 1 the program fails
with the squeezed-load IndexError that hits every single-row file, before
the radius is computed.) -/
theorem c7_zero_prompt_amended (rows : List (List ℚ))
    (h10 : ∀ row ∈ rows, row.length = 10) (h2 : 2 ≤ rows.length)
    (hz : ∀ row ∈ rows, row.getD 3 0 = 0 ∧ row.getD 4 0 = 0) :
    (script (numLines rows)).map (fun o => o.fig2.radius) = some 0 ∧
    (script (numLines rows)).map (fun o => o.fig2.circleLine) =
      some (List.replicate 73 ((0 : ℝ), (0 : ℝ))) := by
  have hslice : loadAndSlice (numLines rows) =
      some ⟨rows.map (fun row => row.getD 0 0), rows.map (fun row => row.getD 8 0),
            rows.map (fun row => row.getD 7 0), rows.map (fun row => row.getD 9 0),
            rows.map (fun row => row.getD 3 0), rows.map (fun row => row.getD 4 0)⟩ := by
    rw [loadAndSlice, loadtxt_numLines h10 h2]
    exact sliceAll_d2 h10
  have hi : ∀ x ∈ rows.map (fun row => row.getD 3 0), x = 0 := by
    intro x hx
    obtain ⟨row, hrow, rfl⟩ := List.mem_map.mp hx
    exact (hz row hrow).1
  have hq : ∀ x ∈ rows.map (fun row => row.getD 4 0), x = 0 := by
    intro x hx
    obtain ⟨row, hrow, rfl⟩ := List.mem_map.mp hx
    exact (hz row hrow).2
  have hr0 : meanRadius (rows.map (fun row => row.getD 3 0))
      (rows.map (fun row => row.getD 4 0)) = 0 := meanRadius_all_zero hi hq
  refine ⟨?_, ?_⟩
  · rw [script, hslice]
    show some (meanRadius (rows.map (fun row => row.getD 3 0))
      (rows.map (fun row => row.getD 4 0))) = some 0
    rw [hr0]
  · rw [script, hslice]
    show some (circle (meanRadius (rows.map (fun row => row.getD 3 0))
      (rows.map (fun row => row.getD 4 0)))) = some (List.replicate 73 ((0 : ℝ), (0 : ℝ)))
    rw [hr0, circle_zero_replicate]

/-- Witness for C7 (amended) on a concrete two-row table whose prompt
columns are all zero. -/
theorem c7_zero_prompt_amended_witness :
    (script (numLines [[1, 2, 3, 0, 0, 4, 5, 6, 7, 8],
                       [2, 3, 4, 0, 0, 5, 6, 7, 8, 9]])).map
      (fun o => o.fig2.radius) = some 0 ∧
    (script (numLines [[1, 2, 3, 0, 0, 4, 5, 6, 7, 8],
                       [2, 3, 4, 0, 0, 5, 6, 7, 8, 9]])).map
      (fun o => o.fig2.circleLine) =
      some (List.replicate 73 ((0 : ℝ), (0 : ℝ))) :=
  c7_zero_prompt_amended _ (by decide) (by decide) (by decide)

/-- C8: the Dump Table is loaded once and never mutated: every rendered
series and derived quantity is a pure function of the loaded table, so the
whole output factors through `loadtxt` — two invocations whose loads agree
draw exactly the same figures. -/
theorem c8_output_pure_function_of_table (lines1 lines2 : List (List Token))
    (h : loadtxt lines1 = loadtxt lines2) :
    script lines1 =
      (loadtxt lines1).bind
        (fun d0 => (sliceAll d0).map (fun s => ⟨fig1Of s, fig2Of s, fig3Of s⟩)) ∧
    script lines1 = script lines2 := by
  constructor
  · rw [script, loadAndSlice]
    rcases loadtxt lines1 with _ | d0 <;> rfl
  · rw [script, script, loadAndSlice, loadAndSlice, h]

/-- Witness for C8: inserting a blank line (skipped by the loader) leaves
the loaded table, and hence every figure, unchanged. -/
theorem c8_output_pure_function_of_table_witness :
    script [numLine [1, 2], [], numLine [3, 4]] =
      script [numLine [1, 2], numLine [3, 4]] :=
  (c8_output_pure_function_of_table _ _ (by decide)).2

/-- C9: the early/late raw I and Q columns (1, 2, 5, 6) influence no
output: two tables agreeing on columns 0, 3, 4, 7, 8, 9 produce identical
plotted series and an identical reference circle. -/
theorem c9_early_late_noninterference (rows1 rows2 : List (List ℚ))
    (hlen : rows1.length = rows2.length)
    (h10a : ∀ row ∈ rows1, row.length = 10)
    (h10b : ∀ row ∈ rows2, row.length = 10)
    (hagree : ∀ j ∈ [0, 3, 4, 7, 8, 9],
      rows1.map (fun row => row.getD j 0) = rows2.map (fun row => row.getD j 0)) :
    script (numLines rows1) = script (numLines rows2) := by
  by_cases hlt : rows1.length < 2
  · rw [script_short_table hlt h10a, script_short_table (hlen ▸ hlt) h10b]
  · push_neg at hlt
    have hlt2 : 2 ≤ rows2.length := hlen ▸ hlt
    have hs1 : loadAndSlice (numLines rows1) =
        some ⟨rows1.map (fun row => row.getD 0 0), rows1.map (fun row => row.getD 8 0),
              rows1.map (fun row => row.getD 7 0), rows1.map (fun row => row.getD 9 0),
              rows1.map (fun row => row.getD 3 0), rows1.map (fun row => row.getD 4 0)⟩ := by
      rw [loadAndSlice, loadtxt_numLines h10a hlt]
      exact sliceAll_d2 h10a
    have hs2 : loadAndSlice (numLines rows2) =
        some ⟨rows2.map (fun row => row.getD 0 0), rows2.map (fun row => row.getD 8 0),
              rows2.map (fun row => row.getD 7 0), rows2.map (fun row => row.getD 9 0),
              rows2.map (fun row => row.getD 3 0), rows2.map (fun row => row.getD 4 0)⟩ := by
      rw [loadAndSlice, loadtxt_numLines h10b hlt2]
      exact sliceAll_d2 h10b
    rw [script, script, hs1, hs2,
      hagree 0 (by decide), hagree 3 (by decide), hagree 4 (by decide),
      hagree 7 (by decide), hagree 8 (by decide), hagree 9 (by decide)]

/-- Witness for C9: two concrete tables differing only in the early/late
I/Q columns 1, 2, 5 and 6. -/
theorem c9_early_late_noninterference_witness :
    script (numLines [[0, 1, 1, 3, 4, 1, 1, 7, 8, 9],
                      [1, 2, 2, 13, 14, 2, 2, 17, 18, 19]]) =
      script (numLines [[0, 9, 9, 3, 4, 9, 9, 7, 8, 9],
                        [1, 8, 8, 13, 14, 8, 8, 17, 18, 19]]) :=
  c9_early_late_noninterference _ _ (by decide) (by decide) (by decide) (by decide)

/-- C10: every generated circle point lies exactly on the circle of radius
|r| about the origin: its coordinates satisfy x² + y² = r². -/
theorem c10_points_on_circle (r : ℝ) (p : ℝ × ℝ) (hp : p ∈ circle r) :
    p.1 ^ 2 + p.2 ^ 2 = r ^ 2 := by
  obtain ⟨d, hd, rfl⟩ := List.mem_map.mp hp
  show (r * Real.cos (deg2rad d)) ^ 2 + (r * Real.sin (deg2rad d)) ^ 2 = r ^ 2
  have h := Real.sin_sq_add_cos_sq (deg2rad d)
  nlinarith [h]

/-- Witness for C10 at the first point of the unit circle. -/
theorem c10_points_on_circle_witness :
    (circlePoint 1 0).1 ^ 2 + (circlePoint 1 0).2 ^ 2 = 1 ^ 2 :=
  c10_points_on_circle 1 (circlePoint 1 0)
    (by rw [circle]; exact List.mem_map_of_mem _ (by decide))

end CorrDump
